import Mathlib

/-!
Verification of the 2D kinematic collision core of the `beeline` game
(src/collision.rs, src/player.rs, src/world.rs).

Conventions of the shallow embedding:
* `f32` values are embedded as exact rationals (`ℚ`); the source algorithms are
  algebraic (field operations and comparisons), so every code path is mirrored
  exactly, with the fixed tolerance `EPSILON = 1e-4` kept as a rational.
* Angles appear in the position pipeline only through `cos`/`sin` of the single
  angle `velocity_angle`; the embedding therefore passes the direction unit
  vector `(c, s) = (cos velocity_angle, sin velocity_angle)` as rational
  parameters.  The angle `velocity_angle - PI/2` used for the bee's x-basis has
  unit vector `(s, -c)`, which is how it is written below.
* The transcendental front end (cursor `atan2`, vector length, the rotation
  write) is embedded separately over `ℝ`.
* Rust strings are embedded as `List Char` (the map files are ASCII).
-/

/-- 2D vector with rational components, embedding bevy's `Vec2` (`f32` pairs). -/
structure Vec2 where
  x : ℚ
  y : ℚ
deriving DecidableEq, Repr

instance : Add Vec2 := ⟨fun a b => ⟨a.x + b.x, a.y + b.y⟩⟩

instance : Sub Vec2 := ⟨fun a b => ⟨a.x - b.x, a.y - b.y⟩⟩

/-- Scalar multiplication on the right, embedding `Vec2 * f32`. -/
def Vec2.scale (v : Vec2) (k : ℚ) : Vec2 := ⟨v.x * k, v.y * k⟩

/-- Squared euclidean length of a vector (used to state magnitude claims
without a square root). -/
def Vec2.len_sq (v : Vec2) : ℚ := v.x * v.x + v.y * v.y

theorem Vec2.add_def (a b : Vec2) : a + b = ⟨a.x + b.x, a.y + b.y⟩ := rfl

theorem Vec2.sub_def (a b : Vec2) : a - b = ⟨a.x - b.x, a.y - b.y⟩ := rfl

/-- The float tolerance used throughout the source, `1e-4`. -/
def EPSILON : ℚ := 1 / 10000

/-- Modelled from the spec: `util::flt_equal` (util.rs is not in src/).  The
spec states that all float equality tests use `|a - b| < ε` with the fixed
tolerance `ε = 1e-4`. -/
def flt_equal (a b : ℚ) : Bool := |a - b| < EPSILON

/-- Modelled from the spec: `util::polar_to_cartesian` (util.rs is not in
src/).  The spec gives `polar_to_cartesian(angle, mag) = (mag·cos angle,
mag·sin angle)`; the angle is represented here by its unit vector
`(c, s) = (cos angle, sin angle)` so the embedding stays rational. -/
def polar_to_cartesian (c s : ℚ) (mag : ℚ) : Vec2 := ⟨mag * c, mag * s⟩

/-- Parametric line, `pos = p + v*t`, embedding `collision::ParaLine`. -/
structure ParaLine where
  p : Vec2
  v : Vec2
deriving DecidableEq, Repr

/-- `ParaLine::point`: the point at parameter `t`. -/
def ParaLine.point (l : ParaLine) (t : ℚ) : Vec2 := l.p + l.v.scale t

/-- `collision::intersect_lines`, translated line by line from
src/collision.rs.  Note the last term of the `t1` numerator is `p2.y * v1.x`,
exactly as in the source. -/
def intersect_lines (p1 v1 p2 v2 : Vec2) : Option ℚ :=
  let divisor := v1.x * v2.y - v1.y * v2.x
  if flt_equal divisor 0 then
    -- Parallel lines
    none
  else
    let t1 := (p2.x * v2.y - p1.x * v2.y + p1.y * v2.x - p2.y * v1.x) / divisor
    if 0 ≤ t1 ∧ t1 ≤ 1 then
      let t2 :=
        if !flt_equal v2.y 0 then (v1.y * t1 + p1.y - p2.y) / v2.y
        else if !flt_equal v2.x 0 then (v1.x * t1 + p1.x - p2.x) / v2.x
        else 0
      if 0 ≤ t2 ∧ t2 ≤ 1 then some t1 else none
    else none

/-- `ParaLine::intersect`. -/
def ParaLine.intersect (l1 l2 : ParaLine) : Option ℚ :=
  intersect_lines l1.p l1.v l2.p l2.v

/-- `collision::rect_to_lines`: the four edges of an axis-aligned rectangle,
in source order. -/
def rect_to_lines (top_left size : Vec2) : List ParaLine :=
  let size_x : Vec2 := ⟨size.x, 0⟩
  let size_y : Vec2 := ⟨0, size.y⟩
  [⟨top_left, size_x⟩,
   ⟨top_left, size_y⟩,
   ⟨top_left + size_x, size_y⟩,
   ⟨top_left + size_y, size_x⟩]

/-- `enemy::Enemy` (enemy.rs is outside src/; only the variants carried by
tiles are needed: `Missile` and `Laser { angle }`). -/
inductive Enemy where
  | missile : Enemy
  | laser (angle : ℚ) : Enemy
deriving DecidableEq, Repr

/-- `world::Tile`.  The runtime `Spawner` struct pairs the enemy with a
repeating `Timer` whose cooldown constants live in enemy.rs (outside src/);
no claim touches the timer, so a tile records the enemy kind only. -/
inductive Tile where
  | wall : Tile
  | spawner (enemy : Enemy) : Tile
deriving DecidableEq, Repr

/-- `Tile::SIZE`. -/
def Tile.SIZE : ℚ := 24

namespace Player

/-- `Player::SIZE`. -/
def SIZE : ℚ := 24

/-- `Player::VELOCITY`. -/
def VELOCITY : ℚ := 500

end Player

/-- The two upgrade flags the core reads (`upgrades::Upgrades` is outside
src/; `move_player` queries only `DOUBLE_SPEED`, `spawn_player` only
`SHRINK`). -/
structure Upgrades where
  shrink : Bool
  double_speed : Bool
deriving DecidableEq, Repr

/-- The per-tick desired displacement from src/player.rs lines 104-111:
`polar_to_cartesian(velocity_angle, velocity_scale * Player::VELOCITY)
 * delta_seconds * (2 if DOUBLE_SPEED else 1)`. -/
def tick_velocity (c s velocity_scale dt : ℚ) (upgrades : Upgrades) : Vec2 :=
  ((polar_to_cartesian c s (velocity_scale * Player.VELOCITY)).scale dt).scale
    (if upgrades.double_speed then 2 else 1)

/-- The probe segment from src/player.rs lines 115-120: from the front of the
bee to the place where it is going to go. -/
def player_normal (c s velocity_scale dt : ℚ) (upgrades : Upgrades) (pos : Vec2) : ParaLine :=
  ⟨pos + polar_to_cartesian c s (Player.SIZE / 2),
   tick_velocity c s velocity_scale dt upgrades⟩

/-- The four edges of one wall tile, src/player.rs lines 124-125. -/
def wall_lines (wall : Vec2) : List ParaLine :=
  let wall_size : Vec2 := ⟨Tile.SIZE, Tile.SIZE⟩
  rect_to_lines (wall - wall_size.scale (1/2)) wall_size

/-- Body of `Iterator::reduce` with the closure of src/player.rs lines
129-133: keep `acc` when `acc.0 < next.0`, otherwise take `next`. -/
def reduce_go (acc : ℚ × ParaLine) : List (ℚ × ParaLine) → ℚ × ParaLine
  | [] => acc
  | next :: rest => reduce_go (if acc.1 < next.1 then acc else next) rest

/-- `Iterator::reduce`: first element seeds the accumulator. -/
def reduce_min : List (ℚ × ParaLine) → Option (ℚ × ParaLine)
  | [] => none
  | first :: rest => some (reduce_go first rest)

/-- The per-wall collision lookup of src/player.rs lines 126-133: intersect
the probe with the four edges, keep the hits, reduce with the closure above. -/
def wall_collide (probe : ParaLine) (wall : Vec2) : Option (ℚ × ParaLine) :=
  reduce_min ((wall_lines wall).filterMap
    (fun wall_line => (probe.intersect wall_line).map (fun t => (t, wall_line))))

/-- The first wall (in iteration order) whose `wall_collide` is `some`,
together with that result.  This is what the `for`/`break` loop of
`move_player` selects. -/
def find_collide (probe : ParaLine) (walls : List Vec2) : Option (ℚ × ParaLine) :=
  walls.findSome? (wall_collide probe)

/-- The push vector of src/player.rs lines 136-165: corner selection
heuristic, rotated bee basis, and the single-axis push that makes the chosen
corner just touch the collide line. -/
def resolve_push (c s : ℚ) (velocity pos : Vec2) (collide_line : ParaLine) : Vec2 :=
  let top_right0 := Bool.xor (decide (0 ≤ velocity.x)) (decide (0 ≤ velocity.y))
  let vert_collide := flt_equal collide_line.v.x 0
  let top_right_corner_collide := if vert_collide then !top_right0 else top_right0
  let bee_basis_x := polar_to_cartesian s (-c) 1
  let bee_basis_y := polar_to_cartesian c s 1
  let corner_x_offset : ℚ :=
    if top_right_corner_collide then Player.SIZE / 2 else -(Player.SIZE / 2)
  let corner_offset := bee_basis_x.scale corner_x_offset + bee_basis_y.scale (Player.SIZE / 2)
  let corner_pos := pos + corner_offset
  if vert_collide then ⟨collide_line.p.x - corner_pos.x, 0⟩
  else ⟨0, collide_line.p.y - corner_pos.y⟩

/-- The position part of `player::move_player` for one tick with the cursor
inside the window (src/player.rs lines 121-173).  `(c, s)` is the unit
vector of `velocity_angle`, `velocity_scale` the unit-clamped cursor
magnitude, `dt` the elapsed seconds.  `new_x`/`new_y` start at
`pos + velocity`; the `for` loop stops at the first wall whose per-wall
lookup is a hit (`find_collide`, the loop's `break`) and adds
`push.x - velocity.x` and `push.y - velocity.y`. -/
def move_player (c s velocity_scale dt : ℚ) (upgrades : Upgrades) (pos : Vec2)
    (walls : List Vec2) : Vec2 :=
  let velocity := tick_velocity c s velocity_scale dt upgrades
  let probe := player_normal c s velocity_scale dt upgrades pos
  match find_collide probe walls with
  | some (_, collide_line) =>
    let push := resolve_push c s velocity pos collide_line
    ⟨pos.x + velocity.x + (push.x - velocity.x),
     pos.y + velocity.y + (push.y - velocity.y)⟩
  | none => ⟨pos.x + velocity.x, pos.y + velocity.y⟩

/-- Follows the spec's words for the SHRINK claim (C5): the variant of the
push computation in which the effective half-extent `(size * scale) / 2`
(with `scale = 0.5` when SHRINK is active) replaces `SIZE / 2`. -/
def resolve_push_spec (half_extent : ℚ) (c s : ℚ) (velocity pos : Vec2)
    (collide_line : ParaLine) : Vec2 :=
  let top_right0 := Bool.xor (decide (0 ≤ velocity.x)) (decide (0 ≤ velocity.y))
  let vert_collide := flt_equal collide_line.v.x 0
  let top_right_corner_collide := if vert_collide then !top_right0 else top_right0
  let bee_basis_x := polar_to_cartesian s (-c) 1
  let bee_basis_y := polar_to_cartesian c s 1
  let corner_x_offset : ℚ := if top_right_corner_collide then half_extent else -half_extent
  let corner_offset := bee_basis_x.scale corner_x_offset + bee_basis_y.scale half_extent
  let corner_pos := pos + corner_offset
  if vert_collide then ⟨collide_line.p.x - corner_pos.x, 0⟩
  else ⟨0, collide_line.p.y - corner_pos.y⟩

/-- Follows the spec's words for the SHRINK claim (C5): `move_player` with
the effective collision half-extent `(SIZE * scale) / 2`, `scale = 0.5` when
SHRINK is active, used for the probe offset and the corner offset. -/
def move_player_shrink_spec (c s velocity_scale dt : ℚ) (upgrades : Upgrades)
    (pos : Vec2) (walls : List Vec2) : Vec2 :=
  let scale : ℚ := if upgrades.shrink then 1/2 else 1
  let half_extent := Player.SIZE * scale / 2
  let velocity := tick_velocity c s velocity_scale dt upgrades
  let probe : ParaLine := ⟨pos + polar_to_cartesian c s half_extent, velocity⟩
  match find_collide probe walls with
  | some (_, collide_line) =>
    let push := resolve_push_spec half_extent c s velocity pos collide_line
    ⟨pos.x + velocity.x + (push.x - velocity.x),
     pos.y + velocity.y + (push.y - velocity.y)⟩
  | none => ⟨pos.x + velocity.x, pos.y + velocity.y⟩

/-- Open axis-aligned box overlap (spec section 4.5):
`|Δcenter.x| < halfsum.x ∧ |Δcenter.y| < halfsum.y`. -/
def aabb_overlap (c1 c2 : Vec2) (h1 h2 : ℚ) : Prop :=
  |c1.x - c2.x| < h1 + h2 ∧ |c1.y - c2.y| < h1 + h2

instance (c1 c2 : Vec2) (h1 h2 : ℚ) : Decidable (aabb_overlap c1 c2 h1 h2) := by
  unfold aabb_overlap
  infer_instance

/-- Split a character list at every occurrence of `sep`, the model of Rust
`str::split` (which yields one empty piece for the empty string). -/
def split_on (sep : Char) : List Char → List (List Char)
  | [] => [[]]
  | ch :: rest =>
    if ch = sep then [] :: split_on sep rest
    else
      match split_on sep rest with
      | [] => [[ch]]
      | piece :: pieces => (ch :: piece) :: pieces

/-- Fold decimal digits to a natural number; `none` when the list is empty
or contains a non-digit. -/
def parse_digits (cs : List Char) : Option ℕ :=
  if cs = [] then none
  else if cs.all Char.isDigit then
    some (cs.foldl (fun n ch => 10 * n + (ch.toNat - 48)) 0)
  else none

/-- Exact-rational model of `str::parse::<f32>` restricted to the plain
decimal grammar `[-]digits[.digits]` (no exponent, no inf/nan): the loader
only needs which suffixes parse and the value they denote. -/
def parse_float (cs : List Char) : Option ℚ :=
  let signed : ℚ × List Char :=
    match cs with
    | '-' :: rest => (-1, rest)
    | _ => (1, cs)
  match split_on '.' signed.2 with
  | [int_part] => (parse_digits int_part).map (fun n => signed.1 * n)
  | [int_part, frac_part] =>
    match parse_digits int_part, parse_digits frac_part with
    | some a, some b => some (signed.1 * ((a : ℚ) + (b : ℚ) / 10 ^ frac_part.length))
    | _, _ => none
  | _ => none

/-- `world::WorldType`. -/
inductive WorldType where
  | level (n : ℕ) : WorldType
  | endless : WorldType
deriving DecidableEq, Repr

/-- `world::World`. -/
structure World where
  world_type : WorldType
  player_start_coordinates : ℕ × ℕ
  layout : List (List (Option Tile))
deriving DecidableEq, Repr

/-- Outcome of `World::load_level`: `ioError` is the `?` on `File::open`;
`panicked` is any `unwrap` or explicit panic reached while parsing cells
(Rust divergence, distinct from every returned value); `ok` is the built
world. -/
inductive LoadResult where
  | ioError : LoadResult
  | panicked : LoadResult
  | ok (w : World) : LoadResult
deriving DecidableEq, Repr

/-- The cell parser inside `World::load_level` (src/world.rs lines 74-87).
Result `none` is a panic: the `unwrap` of `chars().next()` on an empty cell,
the byte slice `value[2..]` of a too-short `L` cell, the `unwrap` of a failed
float parse, or the explicit `Invalid value` panic arm.  Otherwise
`some (tile, is_star)`. -/
def parse_cell (value : List Char) : Option (Option Tile × Bool) :=
  match value.head? with
  | none => none
  | some '.' => some (none, false)
  | some '#' => some (some Tile.wall, false)
  | some 'L' =>
    if value.length < 2 then none
    else
      match parse_float (value.drop 2) with
      | none => none
      | some angle => some (some (Tile.spawner (Enemy.laser angle)), false)
  | some 'M' => some (some (Tile.spawner Enemy.missile), false)
  | some '*' => some (none, true)
  | some _ => none

/-- One row of the layout: cells from `line.split('\t')` with the column
index recorded for a `*`; the source overwrites `start` at every `*`, so the
last `*` of the row wins. -/
def parse_row_go (j : ℕ) : List (List Char) → Option (List (Option Tile) × Option ℕ)
  | [] => some ([], none)
  | value :: rest =>
    match parse_cell value with
    | none => none
    | some (tile, is_star) =>
      match parse_row_go (j + 1) rest with
      | none => none
      | some (row, star) =>
        some (tile :: row, if star.isSome then star else if is_star then some j else none)

/-- All rows of the layout; a `*` in a later row overwrites an earlier
`start`, matching the source's repeated assignment. -/
def load_rows_go (i : ℕ) :
    List (List Char) → Option (List (List (Option Tile)) × Option (ℕ × ℕ))
  | [] => some ([], none)
  | line :: rest =>
    match parse_row_go 0 (split_on '\t' line) with
    | none => none
    | some (row, star_col) =>
      match load_rows_go (i + 1) rest with
      | none => none
      | some (layout, star) =>
        some (row :: layout,
              if star.isSome then star else star_col.map (fun j => (j, i)))

/-- `World::load_level` (src/world.rs lines 64-98).  `file = none` models a
failed `File::open` (the only `?`); otherwise the per-line read results are
flattened, so `Err` lines are silently skipped, and the surviving lines are
parsed.  A missing `*` defaults the start to `(0, 0)`. -/
def load_level (file : Option (List (Except Unit (List Char)))) (level : ℕ) : LoadResult :=
  match file with
  | none => LoadResult.ioError
  | some lines =>
    match load_rows_go 0 (lines.filterMap Except.toOption) with
    | none => LoadResult.panicked
    | some (layout, start) =>
      LoadResult.ok ⟨WorldType.level level, start.getD (0, 0), layout⟩

/-- The tile transform of `spawn_world` (src/world.rs lines 123-124): grid
cell `(i, j)` is placed at world center `(j * SIZE, -(i * SIZE))`. -/
def tile_world_pos (i j : ℕ) : Vec2 := ⟨(j : ℚ) * Tile.SIZE, -((i : ℚ) * Tile.SIZE)⟩

/-- The tiles `spawn_world` spawns, each with its world center, in the
source's nested iteration order (src/world.rs lines 121-177). -/
def tile_positions (w : World) : List (Vec2 × Tile) :=
  (w.layout.enum.map (fun ir =>
    ir.2.enum.filterMap (fun jt =>
      jt.2.map (fun t => (tile_world_pos ir.1 jt.1, t))))).flatten

/-- The player spawn location of `spawn_world` (src/world.rs lines 180-183):
`Vec2::new(start.0, -start.1) * Tile::SIZE`. -/
def player_start_location (w : World) : Vec2 :=
  ⟨(w.player_start_coordinates.1 : ℚ) * Tile.SIZE,
   -((w.player_start_coordinates.2 : ℚ)) * Tile.SIZE⟩

/-- Real-valued model of `f32::atan2` (quadrant-aware arctangent; signed
zeros and NaN are outside the model).  In particular `atan2 0 0 = 0`, as in
Rust. -/
noncomputable def atan2 (y x : ℝ) : ℝ :=
  if 0 < x then Real.arctan (y / x)
  else if x < 0 then
    (if 0 ≤ y then Real.arctan (y / x) + Real.pi else Real.arctan (y / x) - Real.pi)
  else if 0 < y then Real.pi / 2
  else if y < 0 then -(Real.pi / 2)
  else 0

/-- src/player.rs lines 95-98: cursor position relative to the window
center. -/
noncomputable def relative_pos (cursor_x cursor_y width height : ℝ) : ℝ × ℝ :=
  (cursor_x - width / 2, cursor_y - height / 2)

/-- src/player.rs lines 100-102: the unit-clamped cursor magnitude
`relative_pos.length().min(magnitude_cap) / magnitude_cap`. -/
noncomputable def velocity_scale_of (cursor_x cursor_y width height : ℝ) : ℝ :=
  let r := relative_pos cursor_x cursor_y width height
  let magnitude_cap := min width height / 4
  min (Real.sqrt (r.1 ^ 2 + r.2 ^ 2)) magnitude_cap / magnitude_cap

/-- src/player.rs line 114: every tick with the cursor in the window sets
`transform.rotation = Quat::from_rotation_z(velocity_angle - PI / 2)`,
unconditionally overwriting the previous orientation. -/
noncomputable def move_player_rotation (velocity_angle : ℝ) : ℝ :=
  velocity_angle - Real.pi / 2

/-! ### Helper lemmas about the resolver -/

theorem reduce_go_mem (xs : List (ℚ × ParaLine)) :
    ∀ acc, reduce_go acc xs = acc ∨ reduce_go acc xs ∈ xs := by
  induction xs with
  | nil => intro acc; exact Or.inl rfl
  | cons x xs ih =>
    intro acc
    unfold reduce_go
    rcases ih (if acc.1 < x.1 then acc else x) with h | h
    · rw [h]
      by_cases hlt : acc.1 < x.1
      · simp [hlt]
      · simp [hlt]
    · exact Or.inr (List.mem_cons_of_mem _ h)

theorem reduce_go_le (xs : List (ℚ × ParaLine)) :
    ∀ acc, (reduce_go acc xs).1 ≤ acc.1 ∧ ∀ p ∈ xs, (reduce_go acc xs).1 ≤ p.1 := by
  induction xs with
  | nil => intro acc; exact ⟨le_refl _, by simp⟩
  | cons x xs ih =>
    intro acc
    have hstep := ih (if acc.1 < x.1 then acc else x)
    have hacc : (if acc.1 < x.1 then acc else x).1 ≤ acc.1 := by
      by_cases hlt : acc.1 < x.1
      · simp [hlt]
      · simp [hlt]; exact le_of_not_lt hlt
    have hx : (if acc.1 < x.1 then acc else x).1 ≤ x.1 := by
      by_cases hlt : acc.1 < x.1
      · simp [hlt]; exact le_of_lt hlt
      · simp [hlt]
    refine ⟨?_, ?_⟩
    · show (reduce_go (if acc.1 < x.1 then acc else x) xs).1 ≤ acc.1
      exact le_trans hstep.1 hacc
    · intro p hp
      rcases List.mem_cons.mp hp with rfl | hp
      · exact le_trans hstep.1 hx
      · exact hstep.2 p hp

theorem wall_collide_spec (probe : ParaLine) (wall : Vec2) (t : ℚ) (l : ParaLine)
    (h : wall_collide probe wall = some (t, l)) :
    l ∈ wall_lines wall ∧ probe.intersect l = some t ∧
      ∀ l' ∈ wall_lines wall, ∀ t', probe.intersect l' = some t' → t ≤ t' := by
  unfold wall_collide at h
  set hits := (wall_lines wall).filterMap
    (fun wall_line => (probe.intersect wall_line).map (fun u => (u, wall_line))) with hhits
  cases hhl : hits with
  | nil => rw [hhl] at h; exact absurd h (by simp [reduce_min])
  | cons first rest =>
    rw [hhl] at h
    unfold reduce_min at h
    have heq : reduce_go first rest = (t, l) := by
      have := h
      simp at this
      exact this
    have hmem : (t, l) ∈ hits := by
      rw [hhl]
      rcases reduce_go_mem rest first with h1 | h1
      · rw [heq] at h1; rw [← h1]; exact List.mem_cons_self _ _
      · rw [heq] at h1; exact List.mem_cons_of_mem _ h1
    have hmem2 := List.mem_filterMap.mp (hhits ▸ hmem)
    obtain ⟨wl, hwl, hmap⟩ := hmem2
    rcases Option.map_eq_some'.mp hmap with ⟨t0, hint, hpair⟩
    obtain ⟨rfl, rfl⟩ : t0 = t ∧ wl = l := by
      constructor <;> (cases hpair; rfl)
    refine ⟨hwl, hint, ?_⟩
    intro l' hl' t' hint'
    have hmem' : (t', l') ∈ hits := by
      rw [hhits]
      exact List.mem_filterMap.mpr ⟨l', hl', by rw [hint']; rfl⟩
    rw [hhl] at hmem'
    have hle := reduce_go_le rest first
    rcases List.mem_cons.mp hmem' with hfst | hrest
    · have := hle.1
      rw [heq] at this
      rw [← hfst] at this
      exact this
    · have := hle.2 _ hrest
      rw [heq] at this
      exact this

theorem find_collide_cons_none {probe : ParaLine} {w : Vec2} (ws : List Vec2)
    (h : wall_collide probe w = none) :
    find_collide probe (w :: ws) = find_collide probe ws := by
  unfold find_collide
  rw [List.findSome?_cons, h]

theorem find_collide_cons_some {probe : ParaLine} {w : Vec2} {r : ℚ × ParaLine}
    (ws : List Vec2) (h : wall_collide probe w = some r) :
    find_collide probe (w :: ws) = some r := by
  unfold find_collide
  rw [List.findSome?_cons, h]

theorem find_collide_append_none {probe : ParaLine} {ws1 : List Vec2}
    (h : ∀ w' ∈ ws1, wall_collide probe w' = none) (ws2 : List Vec2) :
    find_collide probe (ws1 ++ ws2) = find_collide probe ws2 := by
  induction ws1 with
  | nil => rfl
  | cons w ws ih =>
    rw [List.cons_append, find_collide_cons_none _ (h w (List.mem_cons_self w ws))]
    exact ih (fun w' hw' => h w' (List.mem_cons_of_mem _ hw'))

theorem move_player_hit_eq (c s velocity_scale dt : ℚ) (up : Upgrades) (pos : Vec2)
    (walls : List Vec2) (t : ℚ) (line : ParaLine)
    (h : find_collide (player_normal c s velocity_scale dt up pos) walls = some (t, line)) :
    move_player c s velocity_scale dt up pos walls =
      pos + resolve_push c s (tick_velocity c s velocity_scale dt up) pos line := by
  simp only [move_player]
  rw [h]
  cases pos
  simp only [Vec2.add_def, Vec2.mk.injEq]
  constructor <;> ring

theorem move_player_no_hit (c s velocity_scale dt : ℚ) (up : Upgrades) (pos : Vec2)
    (walls : List Vec2)
    (h : find_collide (player_normal c s velocity_scale dt up pos) walls = none) :
    move_player c s velocity_scale dt up pos walls =
      pos + tick_velocity c s velocity_scale dt up := by
  simp only [move_player]
  rw [h]
  cases pos
  simp [Vec2.add_def]

theorem tick_velocity_zero_scale (c s dt : ℚ) (up : Upgrades) :
    tick_velocity c s 0 dt up = ⟨0, 0⟩ := by
  simp [tick_velocity, polar_to_cartesian, Vec2.scale]

theorem intersect_lines_zero_v1 (p p2 v2 : Vec2) : intersect_lines p ⟨0, 0⟩ p2 v2 = none := by
  norm_num [intersect_lines, flt_equal, EPSILON]

theorem wall_collide_zero (p : Vec2) (wall : Vec2) :
    wall_collide ⟨p, ⟨0, 0⟩⟩ wall = none := by
  simp [wall_collide, wall_lines, rect_to_lines, List.filterMap, ParaLine.intersect,
    intersect_lines_zero_v1, reduce_min]

theorem find_collide_zero (p : Vec2) (walls : List Vec2) :
    find_collide ⟨p, ⟨0, 0⟩⟩ walls = none := by
  induction walls with
  | nil => rfl
  | cons w ws ih =>
    rw [find_collide_cons_none ws (wall_collide_zero p w)]
    exact ih

theorem move_player_zero_scale (c s dt : ℚ) (up : Upgrades) (pos : Vec2)
    (walls : List Vec2) :
    move_player c s 0 dt up pos walls = pos := by
  have hv : tick_velocity c s 0 dt up = ⟨0, 0⟩ := tick_velocity_zero_scale c s dt up
  have hp : player_normal c s 0 dt up pos =
      ⟨pos + polar_to_cartesian c s (Player.SIZE / 2), ⟨0, 0⟩⟩ := by
    unfold player_normal
    rw [hv]
  simp only [move_player]
  rw [hp, find_collide_zero, hv]
  cases pos
  simp [Vec2.add_def]

theorem tick_velocity_double (c s velocity_scale dt : ℚ) (sh : Bool) :
    tick_velocity c s velocity_scale dt ⟨sh, true⟩ =
      (tick_velocity c s velocity_scale dt ⟨sh, false⟩).scale 2 := by
  simp only [tick_velocity, polar_to_cartesian, Vec2.scale, Vec2.mk.injEq]
  norm_num

theorem get?_mem_enumFrom {α : Type} :
    ∀ (l : List α) (n i : ℕ) (x : α), l.get? i = some x → (n + i, x) ∈ l.enumFrom n := by
  intro l
  induction l with
  | nil =>
    intro n i x h
    simp [List.get?] at h
  | cons a l ih =>
    intro n i x h
    cases i with
    | zero =>
      simp only [List.get?] at h
      cases h
      simp [List.enumFrom]
    | succ i =>
      simp only [List.get?] at h
      have hmem := ih (n + 1) i x h
      have harith : n + (i + 1) = (n + 1) + i := by omega
      rw [harith]
      exact List.mem_cons_of_mem _ hmem

theorem get?_mem_enum {α : Type} (l : List α) (i : ℕ) (x : α) (h : l.get? i = some x) :
    (i, x) ∈ l.enum := by
  have := get?_mem_enumFrom l 0 i x h
  simpa [List.enum] using this

/-! ### Claim theorems -/

/-- C4: the claimed contract — `intersect(a, b)` returns `Some(t1)` exactly
when the segments meet at parameters inside `[0, 1]` — is also the code's own
doc comment, and the documented instance `(0,-1)+(0,2)t` vs `(-1,0)+(2,0)t`
returning `Some(0.5)` does hold; but the last numerator term of the `t1`
formula is `p2.y*v1.x` where the correct cross-product term is `p2.y*v2.x`,
and the contract fails: the segments `(0,1/2)+(0,2)t` and `(-1,1)+(2,0)t`
cross at `a(1/4) = b(1/2) = (0,1)` with both parameters in `[0, 1]` and a
non-degenerate divisor (`flt_equal (-4) 0` is `false`), yet `intersect_lines`
returns `none`.  The code contradicts its own documentation: a code bug. -/
theorem intersect_lines_contract_violation :
    intersect_lines ⟨0, -1⟩ ⟨0, 2⟩ ⟨-1, 0⟩ ⟨2, 0⟩ = some (1/2) ∧
    intersect_lines ⟨0, 1/2⟩ ⟨0, 2⟩ ⟨-1, 1⟩ ⟨2, 0⟩ = none ∧
    flt_equal ((0 : ℚ) * 0 - 2 * 2) 0 = false ∧
    ParaLine.point ⟨⟨0, 1/2⟩, ⟨0, 2⟩⟩ (1/4) = ParaLine.point ⟨⟨-1, 1⟩, ⟨2, 0⟩⟩ (1/2) ∧
    ((0 : ℚ) ≤ 1/4 ∧ (1/4 : ℚ) ≤ 1) ∧ ((0 : ℚ) ≤ 1/2 ∧ (1/2 : ℚ) ≤ 1) := by
  refine ⟨?_, ?_, ?_, ?_, ?_, ?_⟩ <;>
    norm_num [intersect_lines, flt_equal, EPSILON, ParaLine.point, Vec2.add_def, Vec2.scale]

/-- C10: the cell parser inside `load_level` is not total — inputs that pass
I/O still panic: an empty line and an empty tab-separated cell (the `unwrap`
of `chars().next()`), a bare `L` (the byte slice `value[2..]` is out of
range), and `L:x` (the `unwrap` of the failed float parse of the suffix).
The loader diverges on them instead of returning any error value. -/
theorem load_level_panics_on_malformed_cells :
    load_level (some [Except.ok "".toList]) 0 = LoadResult.panicked ∧
    load_level (some [Except.ok ".\t\t.".toList]) 0 = LoadResult.panicked ∧
    load_level (some [Except.ok "L".toList]) 0 = LoadResult.panicked ∧
    load_level (some [Except.ok "L:x".toList]) 0 = LoadResult.panicked :=
  ⟨rfl, rfl, rfl, rfl⟩

/-- C6 counterexample: the loader does not fail "exactly on I/O failure or
unknown token with a surfaced `MapParseError(row, col, token)`".  An unknown
token `x` makes it panic (there is no error value at all in the result type
of `load_level`, which is `io::Result`), and a per-line I/O failure does not
fail the load: `lines.iter().flatten()` silently skips the `Err` line and the
remaining map loads successfully. -/
theorem load_level_panic_counterexample :
    load_level (some [Except.ok "x".toList]) 0 = LoadResult.panicked ∧
    load_level (some [Except.error (), Except.ok "#".toList]) 0 =
      LoadResult.ok ⟨WorldType.level 0, (0, 0), [[some Tile.wall]]⟩ :=
  ⟨rfl, rfl⟩

/-- C6 amended: the loader returns an error exactly when `File::open` fails;
per-line read failures are silently skipped; an unknown cell token causes a
panic (no error value carrying row/col/token exists); there is no other
validation, and a map with no `*` marker succeeds with `player_start`
defaulting to `(0, 0)`. -/
theorem load_level_error_behavior :
    (∀ level, load_level none level = LoadResult.ioError) ∧
    load_level (some [Except.ok "y".toList]) 7 = LoadResult.panicked ∧
    load_level (some [Except.ok ".\t#".toList]) 5 =
      LoadResult.ok ⟨WorldType.level 5, (0, 0), [[none, some Tile.wall]]⟩ :=
  ⟨fun _ => rfl, rfl, rfl⟩

/-- C7: the tile parsed at grid index `(i, j)` is spawned at world center
`(j * 24, -(i * 24))`, and the player spawn position is derived identically
from `player_start`; in particular the two-line map `. # .` / `. * .`
(tab-separated) loads to a world whose only spawned tile is a wall at
`(24, 0)` and whose player spawn location is `(24, -24)`. -/
theorem tile_world_mapping :
    (∀ (w : World) (i j : ℕ) (row : List (Option Tile)) (t : Tile),
      w.layout.get? i = some row → row.get? j = some (some t) →
      (tile_world_pos i j, t) ∈ tile_positions w) ∧
    load_level (some [Except.ok ".\t#\t.".toList, Except.ok ".\t*\t.".toList]) 1 =
      LoadResult.ok ⟨WorldType.level 1, (1, 1),
        [[none, some Tile.wall, none], [none, none, none]]⟩ ∧
    tile_positions ⟨WorldType.level 1, (1, 1),
      [[none, some Tile.wall, none], [none, none, none]]⟩ = [(⟨24, 0⟩, Tile.wall)] ∧
    tile_world_pos 0 1 = ⟨24, 0⟩ ∧
    player_start_location ⟨WorldType.level 1, (1, 1),
      [[none, some Tile.wall, none], [none, none, none]]⟩ = ⟨24, -24⟩ := by
  refine ⟨?_, rfl, ?_, ?_, ?_⟩
  · intro w i j row t hi hj
    have h1 : (i, row) ∈ w.layout.enum := get?_mem_enum _ _ _ hi
    have h2 : (j, some t) ∈ row.enum := get?_mem_enum _ _ _ hj
    unfold tile_positions
    apply List.mem_flatten.mpr
    refine ⟨row.enum.filterMap (fun jt => jt.2.map (fun u => (tile_world_pos i jt.1, u))), ?_, ?_⟩
    · exact List.mem_map_of_mem _ h1
    · exact List.mem_filterMap.mpr ⟨(j, some t), h2, rfl⟩
  · norm_num [tile_positions, tile_world_pos, Tile.SIZE, List.enum, List.enumFrom,
      List.filterMap]
  · norm_num [tile_world_pos, Tile.SIZE]
  · norm_num [player_start_location, Tile.SIZE]

/-- C7 witness: the general mapping applied to the loaded two-line map at the
wall cell `(i, j) = (0, 1)`. -/
theorem tile_world_mapping_witness :
    (tile_world_pos 0 1, Tile.wall) ∈ tile_positions ⟨WorldType.level 1, (1, 1),
      [[none, some Tile.wall, none], [none, none, none]]⟩ :=
  tile_world_mapping.1 _ 0 1 [none, some Tile.wall, none] Tile.wall rfl rfl

/-- C1 counterexample: diagonal motion into a vertical wall edge does not
slide.  With direction `(c, s) = (4/5, 3/5)`, `velocity = (40, 30)`, the
player at `(0, -4)` and one wall at `(38, 12)`, the selected collide line is
the vertical left edge `p = (26, 0)`, `v = (0, 24)` (so `flt_equal v.x 0`
holds); the claim predicts `new_pos = (player_pos.x + push.x, player_pos.y +
velocity.y) = (46/5, 26)`, but the code adds `push - velocity` to both
initialized components, cancelling the free-axis velocity too: the result is
`(46/5, -4)`. -/
theorem move_player_slide_counterexample :
    tick_velocity (4/5) (3/5) 1 (1/10) ⟨false, false⟩ = ⟨40, 30⟩ ∧
    find_collide (player_normal (4/5) (3/5) 1 (1/10) ⟨false, false⟩ ⟨0, -4⟩) [⟨38, 12⟩] =
      some (41/100, ⟨⟨26, 0⟩, ⟨0, 24⟩⟩) ∧
    flt_equal (0 : ℚ) 0 = true ∧
    move_player (4/5) (3/5) 1 (1/10) ⟨false, false⟩ ⟨0, -4⟩ [⟨38, 12⟩] = ⟨46/5, -4⟩ ∧
    Vec2.mk (46/5) (-4) ≠ ⟨46/5, -4 + 30⟩ := by
  refine ⟨?_, ?_, ?_, ?_, ?_⟩ <;>
    norm_num [move_player, find_collide, List.findSome?, wall_collide, reduce_min, reduce_go,
      wall_lines, rect_to_lines, List.filterMap, ParaLine.intersect, intersect_lines,
      flt_equal, EPSILON, player_normal, tick_velocity, polar_to_cartesian, Vec2.scale,
      Vec2.add_def, Vec2.sub_def, Player.SIZE, Player.VELOCITY, Tile.SIZE, resolve_push,
      Vec2.mk.injEq]

/-- C1 amended: when the probe hits a wall edge, the resolver cancels both
velocity components and applies the single-axis push: the new position is
`player_pos + push`; for a vertical edge (`flt_equal edge.v.x 0`) the y
component stays at `player_pos.y` (it does not advance by `velocity.y`), and
for a horizontal edge the x component stays at `player_pos.x`. -/
theorem move_player_resolution_cancels_velocity (c s velocity_scale dt : ℚ)
    (up : Upgrades) (pos : Vec2) (walls : List Vec2) (t : ℚ) (line : ParaLine)
    (h : find_collide (player_normal c s velocity_scale dt up pos) walls = some (t, line)) :
    move_player c s velocity_scale dt up pos walls =
      pos + resolve_push c s (tick_velocity c s velocity_scale dt up) pos line ∧
    (flt_equal line.v.x 0 = true →
      (move_player c s velocity_scale dt up pos walls).y = pos.y) ∧
    (flt_equal line.v.x 0 = false →
      (move_player c s velocity_scale dt up pos walls).x = pos.x) := by
  have hmain := move_player_hit_eq c s velocity_scale dt up pos walls t line h
  refine ⟨hmain, ?_, ?_⟩
  · intro hv
    have hy : (resolve_push c s (tick_velocity c s velocity_scale dt up) pos line).y = 0 := by
      simp only [resolve_push]
      rw [hv]
      simp
    rw [hmain]
    simp [Vec2.add_def, hy]
  · intro hv
    have hx : (resolve_push c s (tick_velocity c s velocity_scale dt up) pos line).x = 0 := by
      simp only [resolve_push]
      rw [hv]
      simp
    rw [hmain]
    simp [Vec2.add_def, hx]

/-- C1 witness: the amended theorem at the concrete diagonal-hit input; the
resulting y coordinate equals the starting y coordinate `-4`. -/
theorem move_player_resolution_cancels_velocity_witness :
    move_player (4/5) (3/5) 1 (1/10) ⟨false, false⟩ ⟨0, -4⟩ [⟨38, 12⟩] =
      ⟨0, -4⟩ + resolve_push (4/5) (3/5) (tick_velocity (4/5) (3/5) 1 (1/10) ⟨false, false⟩)
        ⟨0, -4⟩ ⟨⟨26, 0⟩, ⟨0, 24⟩⟩ ∧
    (move_player (4/5) (3/5) 1 (1/10) ⟨false, false⟩ ⟨0, -4⟩ [⟨38, 12⟩]).y = (-4 : ℚ) := by
  have h := move_player_resolution_cancels_velocity (4/5) (3/5) 1 (1/10) ⟨false, false⟩
    ⟨0, -4⟩ [⟨38, 12⟩] (41/100) ⟨⟨26, 0⟩, ⟨0, 24⟩⟩
    (by norm_num [find_collide, List.findSome?, wall_collide, reduce_min, reduce_go,
      wall_lines, rect_to_lines, List.filterMap, ParaLine.intersect, intersect_lines,
      flt_equal, EPSILON, player_normal, tick_velocity, polar_to_cartesian, Vec2.scale,
      Vec2.add_def, Vec2.sub_def, Player.SIZE, Player.VELOCITY, Tile.SIZE])
  exact ⟨h.1, h.2.1 (by norm_num [flt_equal, EPSILON])⟩

/-- C2 counterexample: the resolver does not pick the minimum-`t` hit over
the whole wall set, and ties inside one wall go to the later edge, not the
earlier one.  (a) Walls `(74, 12)` then `(38, 12)` with a rightward probe:
the first wall in iteration order hits at `t = 5/6`, the second at
`t = 7/30 < 5/6`; the claim makes the result independent of list order
(resolve the global minimum, `(14, 12)`), but the code resolves the first
listed wall and yields `(50, 12)` for one order and `(14, 12)` for the
other.  (b) A probe through the wall corner `(26, 0)` hits the first
enumerated edge and the second enumerated edge both at `t = 1/2`, and the
selection keeps the second (`reduce` keeps `next` on ties), not the
first. -/
theorem move_player_first_wall_counterexample :
    wall_collide (player_normal 1 0 1 (3/25) ⟨false, false⟩ ⟨0, 12⟩) ⟨74, 12⟩ =
      some (5/6, ⟨⟨62, 0⟩, ⟨0, 24⟩⟩) ∧
    wall_collide (player_normal 1 0 1 (3/25) ⟨false, false⟩ ⟨0, 12⟩) ⟨38, 12⟩ =
      some (7/30, ⟨⟨26, 0⟩, ⟨0, 24⟩⟩) ∧
    ((7 : ℚ)/30 < 5/6) ∧
    move_player 1 0 1 (3/25) ⟨false, false⟩ ⟨0, 12⟩ [⟨74, 12⟩, ⟨38, 12⟩] = ⟨50, 12⟩ ∧
    move_player 1 0 1 (3/25) ⟨false, false⟩ ⟨0, 12⟩ [⟨38, 12⟩, ⟨74, 12⟩] = ⟨14, 12⟩ ∧
    Vec2.mk 50 12 ≠ Vec2.mk 14 12 ∧
    wall_lines ⟨38, 12⟩ = [⟨⟨26, 0⟩, ⟨24, 0⟩⟩, ⟨⟨26, 0⟩, ⟨0, 24⟩⟩,
      ⟨⟨50, 0⟩, ⟨0, 24⟩⟩, ⟨⟨26, 24⟩, ⟨24, 0⟩⟩] ∧
    ParaLine.intersect (player_normal (3/5) (4/5) 1 (1/50) ⟨false, false⟩ ⟨79/5, -68/5⟩)
      ⟨⟨26, 0⟩, ⟨24, 0⟩⟩ = some (1/2) ∧
    wall_collide (player_normal (3/5) (4/5) 1 (1/50) ⟨false, false⟩ ⟨79/5, -68/5⟩) ⟨38, 12⟩ =
      some (1/2, ⟨⟨26, 0⟩, ⟨0, 24⟩⟩) ∧
    ParaLine.mk ⟨26, 0⟩ ⟨0, 24⟩ ≠ ParaLine.mk ⟨26, 0⟩ ⟨24, 0⟩ := by
  refine ⟨?_, ?_, ?_, ?_, ?_, ?_, ?_, ?_, ?_, ?_⟩ <;>
    norm_num [move_player, find_collide, List.findSome?, wall_collide, reduce_min, reduce_go,
      wall_lines, rect_to_lines, List.filterMap, ParaLine.intersect, intersect_lines,
      flt_equal, EPSILON, player_normal, tick_velocity, polar_to_cartesian, Vec2.scale,
      Vec2.add_def, Vec2.sub_def, Player.SIZE, Player.VELOCITY, Tile.SIZE, resolve_push,
      Vec2.mk.injEq, ParaLine.mk.injEq]

/-- C2 amended: the resolver computes `intersect` for the four edges of each
wall it visits, but resolves against the first wall in iteration order that
has any hit, using that wall's minimum-`t` edge (on equal `t` the later
enumerated edge wins); walls after the first hit wall are not examined. -/
theorem move_player_first_wall_min_edge (c s velocity_scale dt : ℚ) (up : Upgrades)
    (pos : Vec2) (ws1 : List Vec2) (w : Vec2) (ws2 : List Vec2) (t : ℚ) (line : ParaLine)
    (h1 : ∀ w' ∈ ws1, wall_collide (player_normal c s velocity_scale dt up pos) w' = none)
    (h2 : wall_collide (player_normal c s velocity_scale dt up pos) w = some (t, line)) :
    move_player c s velocity_scale dt up pos (ws1 ++ w :: ws2) =
      pos + resolve_push c s (tick_velocity c s velocity_scale dt up) pos line ∧
    line ∈ wall_lines w ∧
    (player_normal c s velocity_scale dt up pos).intersect line = some t ∧
    (∀ l' ∈ wall_lines w, ∀ t',
      (player_normal c s velocity_scale dt up pos).intersect l' = some t' → t ≤ t') := by
  have hspec := wall_collide_spec _ _ _ _ h2
  have hfind : find_collide (player_normal c s velocity_scale dt up pos) (ws1 ++ w :: ws2) =
      some (t, line) := by
    rw [find_collide_append_none h1, find_collide_cons_some _ h2]
  exact ⟨move_player_hit_eq _ _ _ _ _ _ _ _ _ hfind, hspec.1, hspec.2.1, hspec.2.2⟩

/-- C2 witness: the amended theorem at the two-wall input, with the empty
prefix and the wall at `(74, 12)` as the first wall with a hit. -/
theorem move_player_first_wall_min_edge_witness :
    move_player 1 0 1 (3/25) ⟨false, false⟩ ⟨0, 12⟩ ([] ++ ⟨74, 12⟩ :: [⟨38, 12⟩]) =
      ⟨0, 12⟩ + resolve_push 1 0 (tick_velocity 1 0 1 (3/25) ⟨false, false⟩) ⟨0, 12⟩
        ⟨⟨62, 0⟩, ⟨0, 24⟩⟩ :=
  (move_player_first_wall_min_edge 1 0 1 (3/25) ⟨false, false⟩ ⟨0, 12⟩ [] ⟨74, 12⟩
    [⟨38, 12⟩] (5/6) ⟨⟨62, 0⟩, ⟨0, 24⟩⟩ (by simp)
    (by norm_num [wall_collide, reduce_min, reduce_go, wall_lines, rect_to_lines,
      List.filterMap, ParaLine.intersect, intersect_lines, flt_equal, EPSILON,
      player_normal, tick_velocity, polar_to_cartesian, Vec2.scale, Vec2.add_def,
      Vec2.sub_def, Player.SIZE, Player.VELOCITY, Tile.SIZE])).1

/-- C3: the non-penetration invariant fails, rooted in the `intersect_lines`
slip (a code bug): the player starts at `(0, 0)` with its rectangle outside
the wall square centered at `(26, 0)`, the cursor is fully deflected along
`+x` and `Δt = 19/2500`, so `velocity = (19/5, 0)`; the buggy `t1` for the
facing edge is `39/38 > 1` (the correct value is `10/19`), no hit is
detected, and after one movement step the player's 24×24 collision rectangle
overlaps the wall square. -/
theorem move_player_penetration_bug :
    move_player 1 0 1 (19/2500) ⟨false, false⟩ ⟨0, 0⟩ [⟨26, 0⟩] = ⟨19/5, 0⟩ ∧
    ¬ aabb_overlap ⟨0, 0⟩ ⟨26, 0⟩ (Player.SIZE/2) (Tile.SIZE/2) ∧
    aabb_overlap ⟨19/5, 0⟩ ⟨26, 0⟩ (Player.SIZE/2) (Tile.SIZE/2) := by
  refine ⟨?_, ?_, ?_⟩ <;>
    norm_num [move_player, find_collide, List.findSome?, wall_collide, reduce_min, reduce_go,
      wall_lines, rect_to_lines, List.filterMap, ParaLine.intersect, intersect_lines,
      flt_equal, EPSILON, player_normal, tick_velocity, polar_to_cartesian, Vec2.scale,
      Vec2.add_def, Vec2.sub_def, Player.SIZE, Player.VELOCITY, Tile.SIZE, aabb_overlap,
      abs_lt]

/-- C5 counterexample: the SHRINK upgrade does not change the collision
half-extent used against walls.  With SHRINK active, player at `(0, 12)`,
wall at `(26, 12)` and `velocity = (4, 0)`, the code still probes from the
full-size nose `(12, 12)` and clamps to `(2, 12)` — exactly the un-shrunk
result — while the spec-described halved extent `(24 * 0.5) / 2 = 6` would
detect no hit and allow the free motion to `(4, 12)`. -/
theorem move_player_shrink_counterexample :
    tick_velocity 1 0 1 (1/125) ⟨true, false⟩ = ⟨4, 0⟩ ∧
    move_player 1 0 1 (1/125) ⟨true, false⟩ ⟨0, 12⟩ [⟨26, 12⟩] = ⟨2, 12⟩ ∧
    move_player 1 0 1 (1/125) ⟨false, false⟩ ⟨0, 12⟩ [⟨26, 12⟩] = ⟨2, 12⟩ ∧
    move_player_shrink_spec 1 0 1 (1/125) ⟨true, false⟩ ⟨0, 12⟩ [⟨26, 12⟩] = ⟨4, 12⟩ ∧
    Vec2.mk 2 12 ≠ Vec2.mk 4 12 := by
  refine ⟨?_, ?_, ?_, ?_, ?_⟩ <;>
    norm_num [move_player, move_player_shrink_spec, find_collide, List.findSome?,
      wall_collide, reduce_min, reduce_go, wall_lines, rect_to_lines, List.filterMap,
      ParaLine.intersect, intersect_lines, flt_equal, EPSILON, player_normal, tick_velocity,
      polar_to_cartesian, Vec2.scale, Vec2.add_def, Vec2.sub_def, Player.SIZE,
      Player.VELOCITY, Tile.SIZE, resolve_push, resolve_push_spec, Vec2.mk.injEq]

/-- C5 amended: `move_player` never reads the SHRINK flag — the wall
collision pipeline uses `Player::SIZE / 2` unconditionally (only
DOUBLE_SPEED is queried), so the positions with and without SHRINK are
identical for every cursor, wall set and `Δt`. -/
theorem move_player_ignores_shrink (c s velocity_scale dt : ℚ) (ds : Bool)
    (pos : Vec2) (walls : List Vec2) :
    move_player c s velocity_scale dt ⟨true, ds⟩ pos walls =
      move_player c s velocity_scale dt ⟨false, ds⟩ pos walls := rfl

/-- C8 counterexample: with the cursor exactly at the window center the
computed velocity is zero and the position is indeed unchanged, but the tick
is not a no-op on orientation: the rotation is overwritten with
`velocity_angle - PI/2 = atan2(0, 0) - PI/2 = -PI/2`, which differs from a
previous orientation of `0`. -/
theorem zero_velocity_orientation_counterexample :
    velocity_scale_of 400 300 800 600 = 0 ∧
    atan2 (relative_pos 400 300 800 600).2 (relative_pos 400 300 800 600).1 = 0 ∧
    move_player 1 0 0 1 ⟨false, false⟩ ⟨5, 7⟩ [⟨30, 0⟩] = ⟨5, 7⟩ ∧
    move_player_rotation (atan2 0 0) ≠ 0 := by
  refine ⟨?_, ?_, ?_, ?_⟩
  · unfold velocity_scale_of relative_pos
    norm_num
  · unfold relative_pos atan2
    norm_num
  · exact move_player_zero_scale 1 0 1 ⟨false, false⟩ ⟨5, 7⟩ [⟨30, 0⟩]
  · have ha : atan2 0 0 = (0 : ℝ) := by unfold atan2; norm_num
    unfold move_player_rotation
    rw [ha]
    intro hcontra
    have hpi := Real.pi_pos
    linarith

/-- C8 amended: a zero `velocity_scale` (in particular a centered cursor)
leaves the position unchanged for every direction, `Δt`, upgrade set and
wall set, but the orientation is unconditionally overwritten to
`velocity_angle - PI/2`, which for a centered cursor is `-PI/2`. -/
theorem zero_velocity_position_noop :
    (∀ c s dt up pos walls, move_player c s 0 dt up pos walls = pos) ∧
    move_player_rotation (atan2 0 0) = -(Real.pi / 2) := by
  constructor
  · intro c s dt up pos walls
    exact move_player_zero_scale c s dt up pos walls
  · have ha : atan2 0 0 = (0 : ℝ) := by unfold atan2; norm_num
    unfold move_player_rotation
    rw [ha]
    ring

/-- C9: with DOUBLE_SPEED active and identical cursor direction, cursor
magnitude and `Δt`, a tick with no wall hit produces exactly twice the
displacement of the baseline tick: the displacement vector is scaled by 2,
hence its squared magnitude by 4. -/
theorem double_speed_doubles_displacement (c s velocity_scale dt : ℚ) (sh : Bool)
    (pos : Vec2) (walls : List Vec2)
    (h1 : find_collide (player_normal c s velocity_scale dt ⟨sh, false⟩ pos) walls = none)
    (h2 : find_collide (player_normal c s velocity_scale dt ⟨sh, true⟩ pos) walls = none) :
    move_player c s velocity_scale dt ⟨sh, true⟩ pos walls - pos =
      (move_player c s velocity_scale dt ⟨sh, false⟩ pos walls - pos).scale 2 ∧
    (move_player c s velocity_scale dt ⟨sh, true⟩ pos walls - pos).len_sq =
      4 * (move_player c s velocity_scale dt ⟨sh, false⟩ pos walls - pos).len_sq := by
  rw [move_player_no_hit _ _ _ _ _ _ _ h1, move_player_no_hit _ _ _ _ _ _ _ h2]
  have hdouble := tick_velocity_double c s velocity_scale dt sh
  rw [hdouble]
  cases pos
  obtain ⟨vx, vy⟩ : Vec2 := tick_velocity c s velocity_scale dt ⟨sh, false⟩
  constructor
  · simp [Vec2.add_def, Vec2.sub_def, Vec2.scale]
  · simp [Vec2.add_def, Vec2.sub_def, Vec2.scale, Vec2.len_sq]
    ring

/-- C9 witness: the doubling theorem at a concrete input with direction
`(3/5, 4/5)` and no walls: displacement `(6, 8)` is twice `(3, 4)`. -/
theorem double_speed_doubles_displacement_witness :
    move_player (3/5) (4/5) 1 (1/100) ⟨false, true⟩ ⟨0, 0⟩ [] - ⟨0, 0⟩ =
      (move_player (3/5) (4/5) 1 (1/100) ⟨false, false⟩ ⟨0, 0⟩ [] - ⟨0, 0⟩).scale 2 :=
  (double_speed_doubles_displacement (3/5) (4/5) 1 (1/100) false ⟨0, 0⟩ [] rfl rfl).1
